import Mathlib

/-
  Verification of the LCMware middleware (Python) against its
  natural-language specification.

  The definitions below are a shallow embedding of the code in
  src/python/lcmware/ (service.py, action.py, constants.py).  Pure
  computations become Lean functions; Python object mutation is made
  explicit by state passing; exceptions become Except / Option values;
  bus publication is modelled by returning the (channel, message)
  pairs that the code hands to lcm.publish.
-/

/- Status codes from constants.py (class ActionStatus, IntEnum). -/
namespace ActionStatus

def ACCEPTED : Nat := 1

def EXECUTING : Nat := 2

def SUCCEEDED : Nat := 3

def ABORTED : Nat := 4

def CANCELED : Nat := 5

end ActionStatus

/-- constants.py: MAX_CLIENT_NAME_LENGTH = 16. -/
def MAX_CLIENT_NAME_LENGTH : Nat := 16

/-- core.Header: timestamp plus string correlation id.  A freshly
constructed LCM message has timestamp_us = 0 and id = "". -/
structure Header where
  timestamp_us : Int
  id : String
deriving Repr, DecidableEq

/-- core.ServiceResponseHeader: nested header, success flag, error text. -/
structure ResponseHeader where
  header : Header
  success : Bool
  error_message : String
deriving Repr, DecidableEq

/-- core.ActionStatus message: nested header, integer status, text. -/
structure ActionStatusMsg where
  header : Header
  status : Nat
  message : String
deriving Repr, DecidableEq

/-- core.ActionCancel: header plus redundant goal_id field. -/
structure ActionCancelMsg where
  header : Header
  goal_id : String
deriving Repr, DecidableEq

/-- A service request instance: the framework-managed header plus the
user payload fields (all non-header fields collapsed into one value). -/
structure ServiceRequest (α : Type) where
  header : Header
  payload : α
deriving Repr, DecidableEq

/-- A service response instance: response_header plus user payload. -/
structure ServiceResponse (β : Type) where
  response_header : ResponseHeader
  payload : β
deriving Repr, DecidableEq

/-- Association-list lookup, first match wins: models Python dict
membership test and indexing (dict keys are unique, so first = only). -/
def lookupKey {κ γ : Type} [DecidableEq κ] (k : κ) : List (κ × γ) → Option γ
  | [] => none
  | e :: rest => if e.1 = k then some e.2 else lookupKey k rest

/-- Association-list removal of the first binding of a key: models
Python dict.pop. -/
def removeKey {κ γ : Type} [DecidableEq κ] (k : κ) : List (κ × γ) → List (κ × γ)
  | [] => []
  | e :: rest => if e.1 = k then rest else e :: removeKey k rest

/-- Message text of the TypeError raised by _validate_message_instance
(service.py lines 36-39) when an instance has the wrong type. -/
def validate_message_instance_error (context expected got : String) : String :=
  context ++ ": Expected " ++ expected ++ ", got " ++ got

/-- What the user service handler did for one request: returned a
proper instance of the response type, returned some other object
(its type name recorded), or raised an exception with the given text. -/
inductive HandlerOutcome (β : Type) where
  | ok (response : ServiceResponse β)
  | wrongType (expected got : String)
  | raises (msg : String)
deriving Repr, DecidableEq

/-- ServiceServer._handle_request (service.py lines 332-368), after the
request has been decoded.  Returns the (channel, response) pair handed
to lcm.publish.  `defaultPayload` is the payload of a default-constructed
response instance (self._response_type()). -/
def ServiceServer.handle_request {α β : Type} (service_channel : String)
    (defaultPayload : β) (outcome : HandlerOutcome β)
    (request : ServiceRequest α) (now : Int) : String × ServiceResponse β :=
  let response : ServiceResponse β :=
    match outcome with
    | .ok r =>
        { r with response_header :=
            { r.response_header with success := true, error_message := "" } }
    | .wrongType expected got =>
        { response_header :=
            { header := { timestamp_us := 0, id := "" }, success := false,
              error_message :=
                validate_message_instance_error "handler response" expected got },
          payload := defaultPayload }
    | .raises msg =>
        { response_header :=
            { header := { timestamp_us := 0, id := "" }, success := false,
              error_message := msg },
          payload := defaultPayload }
  let response2 :=
    { response with response_header :=
        { response.response_header with header :=
            { timestamp_us := now, id := request.header.id } } }
  (service_channel ++ "/rsp/" ++ request.header.id, response2)

/-- Completed value of a concurrent.futures.Future used for a service
response: set_result(response) or set_exception(RuntimeError(msg)). -/
inductive FutureVal (β : Type) where
  | ok (response : ServiceResponse β)
  | error (msg : String)
deriving Repr, DecidableEq

/-- The mutable state of a ServiceClient that call touches:
client name, request counter, the pending-response map (request id to
future, futures identified by allocation tickets), and the next fresh
ticket (models the freshness of each Future() allocation). -/
structure ClientState where
  client_name : String
  request_counter : Nat
  pending : List (String × Nat)
  next_ticket : Nat
deriving Repr, DecidableEq

/-- The per-request response callback handle_response (service.py lines
191-202) acting on (pending map, completed-future store).  A `none`
arrival is a payload the decoder rejected: the except block logs and
drops it.  Otherwise: if the decoded id is a key of self._responses,
pop that entry and complete the popped future from the success flag. -/
def ServiceClient.handle_response {β : Type}
    (st : List (String × Nat) × List (Nat × FutureVal β))
    (arrival : Option (ServiceResponse β)) :
    List (String × Nat) × List (Nat × FutureVal β) :=
  match arrival with
  | none => st
  | some response =>
    match lookupKey response.response_header.header.id st.1 with
    | none => st
    | some ticket =>
        (removeKey response.response_header.header.id st.1,
         st.2 ++ [(ticket,
           if response.response_header.success then FutureVal.ok response
           else FutureVal.error response.response_header.error_message)])

/-- Everything observable about one ServiceClient.call invocation. -/
structure CallRecord (α β : Type) where
  result : Except String (ServiceResponse β)
  timed_out : Bool
  sent : ServiceRequest α
  request_channel : String
  response_channel : String
  pending_after : List (String × Nat)
  store_after : List (Nat × FutureVal β)
  unsubscribed : Bool
  state_after : ClientState
deriving Repr

/-- ServiceClient.call (service.py lines 141-220).  `arrivals` is the
sequence of payloads delivered on the per-request response channel
before the wait deadline (each already decoded, or none for a decode
failure); an empty or non-completing sequence is a timeout.  The
request copy is built by the field-copy loop (payload copied, header
not), then stamped; the pending slot is inserted; arrivals are
processed by handle_response; the wait inspects the future of this call. -/
def ServiceClient.call {α β : Type} (service_channel : String)
    (st : ClientState) (request : ServiceRequest α) (now : Int)
    (arrivals : List (Option (ServiceResponse β))) : CallRecord α β :=
  let counter := st.request_counter + 1
  let rid := st.client_name ++ "_" ++ toString counter
  let request_copy : ServiceRequest α :=
    { header := { timestamp_us := now, id := rid }, payload := request.payload }
  let ticket := st.next_ticket
  let pending0 := st.pending ++ [(rid, ticket)]
  let response_channel := service_channel ++ "/rsp/" ++ rid
  let request_channel := service_channel ++ "/req"
  let processed := arrivals.foldl ServiceClient.handle_response (pending0, [])
  let base : CallRecord α β :=
    { result := Except.error "", timed_out := false, sent := request_copy,
      request_channel := request_channel, response_channel := response_channel,
      pending_after := processed.1, store_after := processed.2,
      unsubscribed := true,
      state_after :=
        { st with request_counter := counter, pending := processed.1,
                  next_ticket := st.next_ticket + 1 } }
  match lookupKey ticket processed.2 with
  | some (FutureVal.ok response) => { base with result := Except.ok response }
  | some (FutureVal.error msg) => { base with result := Except.error msg }
  | none =>
      let pending2 := removeKey rid processed.1
      { base with
          result := Except.error
            ("Service call to " ++ service_channel ++ " timed out"),
          timed_out := true,
          pending_after := pending2,
          state_after :=
            { st with request_counter := counter, pending := pending2,
                      next_ticket := st.next_ticket + 1 } }

/-- The correlation id call stamps on the copied request. -/
def ServiceClient.stampedId (st : ClientState) : String :=
  st.client_name ++ "_" ++ toString (st.request_counter + 1)

/-- An action result instance.  _verify_action_types (action.py lines
80-107) accepts result types carrying a status field (core.ActionStatus),
a response_header field (core.ServiceResponseHeader), or both; a missing
field is modelled by none (attribute access on it raises). -/
structure ActionResult (γ : Type) where
  status : Option ActionStatusMsg
  response_header : Option ResponseHeader
  payload : γ
deriving Repr, DecidableEq

/-- The one-shot result future of an ActionHandle: pending until
_set_result completes it with a result or with a RuntimeError text. -/
inductive FutureState (γ : Type) where
  | pending
  | done (result : ActionResult γ)
  | failed (msg : String)
deriving Repr, DecidableEq

/-- The state of one ActionHandle (action.py lines 110-173): channel and
goal id it was created with, current status, cancelled flag, and the
one-shot result future. -/
structure ActionHandleState (γ : Type) where
  action_channel : String
  goal_id : String
  status : Nat
  cancelled : Bool
  result_future : FutureState γ
deriving Repr, DecidableEq

/-- ActionHandle._set_result (action.py lines 165-173): record the
status; if the future is not yet done, complete it - with the result on
SUCCEEDED, otherwise with RuntimeError about the status. -/
def ActionHandle.set_result {γ : Type} (h : ActionHandleState γ)
    (result : ActionResult γ) (status : Nat) : ActionHandleState γ :=
  { h with
    status := status,
    result_future :=
      (match h.result_future with
      | FutureState.done v => FutureState.done v
      | FutureState.failed m => FutureState.failed m
      | FutureState.pending =>
          if status = ActionStatus.SUCCEEDED then FutureState.done result
          else FutureState.failed
            ("Action failed with status " ++ toString status)) }

/-- ActionClient.send_goal.handle_result (action.py lines 298-307)
acting on the active-goal map.  A `none` arrival is an undecodable
payload.  The code reads result.status.header.id unconditionally; when
the result type has no status field that attribute access raises
AttributeError, the except block logs it, and nothing changes.
Otherwise, if the id is an active goal, the handle is popped from the
map and _set_result is invoked on it with result.status.status.
Returns the new map and the popped, completed handle (if any). -/
def ActionClient.handle_result {γ : Type} (arrival : Option (ActionResult γ))
    (goals : List (String × ActionHandleState γ)) :
    List (String × ActionHandleState γ) × Option (String × ActionHandleState γ) :=
  match arrival with
  | none => (goals, none)
  | some result =>
    match result.status with
    | none => (goals, none)
    | some stmsg =>
      match lookupKey stmsg.header.id goals with
      | none => (goals, none)
      | some h =>
          (removeKey stmsg.header.id goals,
           some (stmsg.header.id, ActionHandle.set_result h result stmsg.status))

/-- ActionClient._cancel_goal (action.py lines 334-346): the ActionCancel
message it encodes and publishes on the cancel channel. -/
def ActionClient.cancel_goal_msg (goal_id : String) (now : Int) : ActionCancelMsg :=
  { header := { timestamp_us := now, id := goal_id }, goal_id := goal_id }

/-- The pieces of client state one ActionHandle.cancel invocation can
touch: the handle itself, the active-goal map of its client, and the
list of (channel, message) pairs published so far. -/
structure CancelStep (γ : Type) where
  handle : ActionHandleState γ
  goals : List (String × ActionHandleState γ)
  published : List (String × ActionCancelMsg)
deriving Repr, DecidableEq

/-- ActionHandle.cancel (action.py lines 144-148): when not yet
cancelled and status is ACCEPTED or EXECUTING, it calls
ActionClient._cancel_goal (which only publishes an ActionCancel on
action_channel/cancel) and sets the cancelled flag; otherwise nothing
happens.  The active-goal map is not consulted or modified. -/
def ActionHandle.cancel {γ : Type} (now : Int) (s : CancelStep γ) : CancelStep γ :=
  if s.handle.cancelled = false ∧
      (s.handle.status = ActionStatus.ACCEPTED ∨
       s.handle.status = ActionStatus.EXECUTING) then
    { handle := { s.handle with cancelled := true },
      goals := s.goals,
      published := s.published ++
        [(s.handle.action_channel ++ "/cancel",
          ActionClient.cancel_goal_msg s.handle.goal_id now)] }
  else s

/-- What the user action handler did for one goal (action.py line 516):
returned a proper result instance, returned an object of another type,
or raised with the given text. -/
inductive ActionHandlerOutcome (γ : Type) where
  | ok (result : ActionResult γ)
  | wrongType (expected got : String)
  | raises (msg : String)
deriving Repr, DecidableEq

/-- ActionServer._handle_goal.execute_action (action.py lines 514-546).
`defaultResult` is a default-constructed result (self._result_type()).
After choosing (result, status, error_msg) from the handler outcome, the
code writes result.status.header.timestamp_us, .header.id, .status and
.message; when the result type has no status field this raises
AttributeError inside the worker thread, so nothing is published and
the goal is not removed from the active map.  Returns the (channel,
result) publication (if reached) and the active map afterwards. -/
def ActionServer.execute_action {γ : Type} (action_channel : String)
    (defaultResult : ActionResult γ) (outcome : ActionHandlerOutcome γ)
    (goal_id : String) (now : Int) (active : List (String × Bool)) :
    Option (String × ActionResult γ) × List (String × Bool) :=
  let chosen : ActionResult γ × Nat × String :=
    match outcome with
    | .ok r => (r, ActionStatus.SUCCEEDED, "")
    | .wrongType expected got =>
        (defaultResult, ActionStatus.ABORTED,
         validate_message_instance_error "handler result" expected got)
    | .raises msg => (defaultResult, ActionStatus.ABORTED, msg)
  match chosen.1.status with
  | none => (none, active)
  | some _ =>
      let result2 : ActionResult γ :=
        { chosen.1 with status :=
            (some { header := { timestamp_us := now, id := goal_id },
                    status := chosen.2.1, message := chosen.2.2 }) }
      (some (action_channel ++ "/res/" ++ goal_id, result2),
       removeKey goal_id active)

/-- Structural shape of a candidate service request type, as probed by
the hasattr checks of _verify_service_types (service.py lines 44-62). -/
structure RequestTypeShape where
  name : String
  has_encode : Bool
  has_decode : Bool
  has_header : Bool
  header_has_timestamp_us : Bool
  header_has_id : Bool
deriving Repr, DecidableEq

/-- Structural shape of a candidate service response type, as probed by
the hasattr checks of _verify_service_types (service.py lines 64-84). -/
structure ResponseTypeShape where
  name : String
  has_encode : Bool
  has_decode : Bool
  has_response_header : Bool
  rh_has_header : Bool
  rh_has_success : Bool
  rh_has_error_message : Bool
  rh_header_has_timestamp_us : Bool
  rh_header_has_id : Bool
deriving Repr, DecidableEq

/-- The _validate_lcm_type checks (service.py lines 28-33) on a request shape. -/
def validate_lcm_type_req (t : RequestTypeShape) : Except String Unit :=
  if t.has_encode = false then
    Except.error ("Type " ++ t.name ++
      " must have an encode method (not a valid LCM type)")
  else if t.has_decode = false then
    Except.error ("Type " ++ t.name ++
      " must have a decode class method (not a valid LCM type)")
  else Except.ok ()

/-- The _validate_lcm_type checks (service.py lines 28-33) on a response shape. -/
def validate_lcm_type_resp (t : ResponseTypeShape) : Except String Unit :=
  if t.has_encode = false then
    Except.error ("Type " ++ t.name ++
      " must have an encode method (not a valid LCM type)")
  else if t.has_decode = false then
    Except.error ("Type " ++ t.name ++
      " must have a decode class method (not a valid LCM type)")
  else Except.ok ()

/-- The request-structure checks of _verify_service_types (lines 50-60),
before the try/except wrapping. -/
def check_request_structure (t : RequestTypeShape) : Except String Unit :=
  if t.has_header = false then
    Except.error ("Service request type " ++ t.name ++
      " must have a header field (core.Header)")
  else if t.header_has_timestamp_us = false then
    Except.error ("Service request header in " ++ t.name ++
      " must have timestamp_us field")
  else if t.header_has_id = false then
    Except.error ("Service request header in " ++ t.name ++
      " must have id field")
  else Except.ok ()

/-- The response-structure checks of _verify_service_types (lines 64-82),
before the try/except wrapping. -/
def check_response_structure (t : ResponseTypeShape) : Except String Unit :=
  if t.has_response_header = false then
    Except.error ("Service response type " ++ t.name ++
      " must have a response_header field (core.ServiceResponseHeader)")
  else if t.rh_has_header = false then
    Except.error ("Service response_header in " ++ t.name ++
      " must have a header field")
  else if t.rh_has_success = false then
    Except.error ("Service response_header in " ++ t.name ++
      " must have a success field")
  else if t.rh_has_error_message = false then
    Except.error ("Service response_header in " ++ t.name ++
      " must have an error_message field")
  else if t.rh_header_has_timestamp_us = false then
    Except.error ("Service response header in " ++ t.name ++
      " must have timestamp_us field")
  else if t.rh_header_has_id = false then
    Except.error ("Service response header in " ++ t.name ++
      " must have id field")
  else Except.ok ()

/-- Embedding of _verify_service_types (service.py lines 44-84): LCM-type checks,
then the wrapped request checks, then the wrapped response checks; each
structural failure is re-raised as a TypeError naming the type. -/
def verify_service_types (rq : RequestTypeShape) (rs : ResponseTypeShape) :
    Except String Unit :=
  match validate_lcm_type_req rq with
  | Except.error e => Except.error e
  | Except.ok _ =>
    match validate_lcm_type_resp rs with
    | Except.error e => Except.error e
    | Except.ok _ =>
      match check_request_structure rq with
      | Except.error e =>
          Except.error ("Failed to validate request type " ++ rq.name ++ ": " ++ e)
      | Except.ok _ =>
        match check_response_structure rs with
        | Except.error e =>
            Except.error ("Failed to validate response type " ++ rs.name ++ ": " ++ e)
        | Except.ok _ => Except.ok ()

/-- The fields a constructed ServiceClient records (service.py 107-122). -/
structure ServiceClientObj where
  service_channel : String
  request_type : String
  response_type : String
  client_name : String
deriving Repr, DecidableEq

/-- One entry in the validation trace: a run of _verify_service_types
for a (channel, request type name, response type name) tuple. -/
abbrev ValidationEvent := String × String × String

/-- ServiceClient.__init__ (service.py lines 90-124), with an explicit
trace of validation runs.  Order as in the source: empty-channel check;
_verify_service_types (recorded in the trace whenever it runs); then the
client-name length check (or generated name). -/
def ServiceClient.init (service_channel : String) (rq : RequestTypeShape)
    (rs : ResponseTypeShape) (client_name : Option String) (gen_name : String)
    (log : List ValidationEvent) :
    Except String ServiceClientObj × List ValidationEvent :=
  if service_channel = "" then
    (Except.error "Service channel cannot be empty", log)
  else
    let log2 := log ++ [(service_channel, rq.name, rs.name)]
    match verify_service_types rq rs with
    | Except.error e => (Except.error e, log2)
    | Except.ok _ =>
      match client_name with
      | some n =>
          if MAX_CLIENT_NAME_LENGTH < n.length then
            (Except.error
              ("Client name must be " ++ toString MAX_CLIENT_NAME_LENGTH ++
               " characters or less, got " ++ toString n.length), log2)
          else
            (Except.ok
              { service_channel := service_channel, request_type := rq.name,
                response_type := rs.name, client_name := n }, log2)
      | none =>
          (Except.ok
            { service_channel := service_channel, request_type := rq.name,
              response_type := rs.name, client_name := gen_name }, log2)

/-- A heap of request objects, keyed by reference: makes the Python
object mutation in ServiceClient.call explicit, so that the frame
property about the caller-owned instance is a real statement. -/
abbrev RequestHeap (α : Type) := List (Nat × ServiceRequest α)

/-- Largest reference in use on the heap. -/
def RequestHeap.maxRef {α : Type} (h : RequestHeap α) : Nat :=
  (h.map Prod.fst).foldr max 0

/-- Allocate a fresh object (reference strictly above every live one):
models Python object construction self._request_type(). -/
def RequestHeap.alloc {α : Type} (h : RequestHeap α) (obj : ServiceRequest α) :
    RequestHeap α × Nat :=
  (h ++ [(RequestHeap.maxRef h + 1, obj)], RequestHeap.maxRef h + 1)

/-- Read an object through its reference. -/
def RequestHeap.get {α : Type} (h : RequestHeap α) (r : Nat) :
    Option (ServiceRequest α) :=
  lookupKey r h

/-- Mutate the object a reference points at (a setattr on that object);
other references are untouched. -/
def RequestHeap.modify {α : Type} (h : RequestHeap α) (r : Nat)
    (f : ServiceRequest α → ServiceRequest α) : RequestHeap α :=
  h.map (fun e => if e.1 = r then (r, f e.2) else e)

/-- The copy-and-stamp fragment of ServiceClient.call (service.py lines
163-181), as heap operations: allocate request_copy as a default
instance; the field-copy loop writes the user payload of the original
onto the copy (header explicitly skipped); then stamp
header.timestamp_us and header.id on the copy.  Every write targets
request_copy; the caller-owned object is only read.  Returns the heap
afterwards and the reference of the copy (none only if the caller
reference is dangling, which Python precludes). -/
def ServiceClient.stamp_request {α : Type} (h : RequestHeap α) (reqRef : Nat)
    (defaultPayload : α) (now : Int) (rid : String) :
    RequestHeap α × Option Nat :=
  match RequestHeap.get h reqRef with
  | none => (h, none)
  | some orig =>
    let alloced := RequestHeap.alloc h
      { header := { timestamp_us := 0, id := "" }, payload := defaultPayload }
    let h1 := alloced.1
    let copyRef := alloced.2
    let h2 := RequestHeap.modify h1 copyRef
      (fun c => { c with payload := orig.payload })
    let h3 := RequestHeap.modify h2 copyRef
      (fun c => { c with header := { c.header with timestamp_us := now } })
    let h4 := RequestHeap.modify h3 copyRef
      (fun c => { c with header := { c.header with id := rid } })
    (h4, some copyRef)

/-- Number of bindings of a key in an association list (0 or 1 when the
list models a Python dict). -/
def countKey {κ γ : Type} [DecidableEq κ] (k : κ) : List (κ × γ) → Nat
  | [] => 0
  | e :: rest => (if e.1 = k then 1 else 0) + countKey k rest

/-
  Helper lemmas about the association-list operations.
-/

theorem lookupKey_mem {κ γ : Type} [DecidableEq κ] {k : κ} {v : γ}
    {l : List (κ × γ)} (h : lookupKey k l = some v) : (k, v) ∈ l := by
  induction l with
  | nil => simp [lookupKey] at h
  | cons e rest ih =>
    by_cases he : e.1 = k
    · simp [lookupKey, he] at h
      have he2 : e = (k, v) := by
        cases e
        simp_all
      rw [he2]
      exact List.mem_cons_self _ _
    · simp [lookupKey, he] at h
      exact List.mem_cons_of_mem _ (ih h)

theorem mem_removeKey {κ γ : Type} [DecidableEq κ] {k : κ} {e : κ × γ}
    {l : List (κ × γ)} (h : e ∈ removeKey k l) : e ∈ l := by
  induction l with
  | nil => simp [removeKey] at h
  | cons e2 rest ih =>
    by_cases he : e2.1 = k
    · simp [removeKey, he] at h
      exact List.mem_cons_of_mem _ h
    · simp only [removeKey, he, if_neg, ite_false] at h
      rcases List.mem_cons.mp h with h1 | h2
      · exact h1 ▸ List.mem_cons_self _ _
      · exact List.mem_cons_of_mem _ (ih h2)

theorem lookupKey_append_left {κ γ : Type} [DecidableEq κ] {k : κ} {v : γ}
    {l l2 : List (κ × γ)} (h : lookupKey k l = some v) :
    lookupKey k (l ++ l2) = some v := by
  induction l with
  | nil => simp [lookupKey] at h
  | cons e rest ih =>
    by_cases he : e.1 = k
    · simp_all [lookupKey]
    · simp_all [lookupKey]

theorem lookupKey_eq_none {κ γ : Type} [DecidableEq κ] {k : κ}
    {l : List (κ × γ)} (h : ∀ e ∈ l, e.1 ≠ k) : lookupKey k l = none := by
  induction l with
  | nil => simp [lookupKey]
  | cons e rest ih =>
    have h1 : e.1 ≠ k := h e (List.mem_cons_self _ _)
    simp only [lookupKey, if_neg h1]
    exact ih (fun e2 he2 => h e2 (List.mem_cons_of_mem _ he2))

theorem lookupKey_append_right {κ γ : Type} [DecidableEq κ] {k : κ}
    {l l2 : List (κ × γ)} (h : lookupKey k l = none) :
    lookupKey k (l ++ l2) = lookupKey k l2 := by
  induction l with
  | nil => simp
  | cons e rest ih =>
    by_cases he : e.1 = k
    · simp [lookupKey, he] at h
    · simp only [lookupKey, if_neg he] at h
      simp only [List.cons_append, lookupKey, if_neg he]
      exact ih h

theorem countKey_zero_lookup {κ γ : Type} [DecidableEq κ] {k : κ}
    {l : List (κ × γ)} (h : countKey k l = 0) : lookupKey k l = none := by
  induction l with
  | nil => simp [lookupKey]
  | cons e rest ih =>
    by_cases he : e.1 = k
    · simp [countKey, he] at h
    · simp only [countKey, if_neg he, Nat.zero_add] at h
      simp only [lookupKey, if_neg he]
      exact ih h

theorem lookupKey_none_countKey {κ γ : Type} [DecidableEq κ] {k : κ}
    {l : List (κ × γ)} (h : lookupKey k l = none) : countKey k l = 0 := by
  induction l with
  | nil => simp [countKey]
  | cons e rest ih =>
    by_cases he : e.1 = k
    · simp [lookupKey, he] at h
    · simp only [lookupKey, if_neg he] at h
      simp only [countKey, if_neg he, Nat.zero_add]
      exact ih h

theorem countKey_append {κ γ : Type} [DecidableEq κ] (k : κ)
    (l l2 : List (κ × γ)) :
    countKey k (l ++ l2) = countKey k l + countKey k l2 := by
  induction l with
  | nil => simp [countKey]
  | cons e rest ih =>
    rw [List.cons_append]
    simp only [countKey]
    rw [ih]
    omega

theorem countKey_removeKey_le {κ γ : Type} [DecidableEq κ] (k k2 : κ)
    (l : List (κ × γ)) : countKey k (removeKey k2 l) ≤ countKey k l := by
  induction l with
  | nil => simp [removeKey]
  | cons e rest ih =>
    by_cases he : e.1 = k2
    · simp only [removeKey, if_pos he]
      simp only [countKey]
      omega
    · simp only [removeKey, if_neg he, countKey]
      omega

theorem removeKey_lookup_none {κ γ : Type} [DecidableEq κ] {k : κ}
    {l : List (κ × γ)} (h : countKey k l ≤ 1) :
    lookupKey k (removeKey k l) = none := by
  induction l with
  | nil => simp [removeKey, lookupKey]
  | cons e rest ih =>
    by_cases he : e.1 = k
    · simp only [removeKey, if_pos he]
      simp only [countKey, if_pos he] at h
      exact countKey_zero_lookup (by omega)
    · simp only [removeKey, if_neg he]
      simp only [lookupKey, if_neg he]
      simp only [countKey, if_neg he, Nat.zero_add] at h
      exact ih h

theorem mem_le_maxRef {α : Type} {e : Nat × ServiceRequest α}
    {h : RequestHeap α} (hm : e ∈ h) : e.1 ≤ RequestHeap.maxRef h := by
  induction h with
  | nil => simp at hm
  | cons e2 rest ih =>
    have hmax : RequestHeap.maxRef (e2 :: rest) =
        max e2.1 (RequestHeap.maxRef rest) := by
      simp [RequestHeap.maxRef]
    rcases List.mem_cons.mp hm with h1 | h2
    · rw [hmax, h1]
      exact Nat.le_max_left _ _
    · rw [hmax]
      exact Nat.le_trans (ih h2) (Nat.le_max_right _ _)

theorem get_modify_ne {α : Type} {r r2 : Nat} (h : RequestHeap α)
    (f : ServiceRequest α → ServiceRequest α) (hne : r ≠ r2) :
    RequestHeap.get (RequestHeap.modify h r2 f) r = RequestHeap.get h r := by
  induction h with
  | nil => simp [RequestHeap.modify, RequestHeap.get, lookupKey]
  | cons e rest ih =>
    by_cases he : e.1 = r2
    · have hner : e.1 ≠ r := by omega
      simp only [RequestHeap.modify, List.map_cons, if_pos he] at *
      simp only [RequestHeap.get, lookupKey] at *
      rw [if_neg (show (r2, f e.2).1 ≠ r by simpa using (Ne.symm hne)),
        if_neg hner]
      exact ih
    · simp only [RequestHeap.modify, List.map_cons, if_neg he] at *
      simp only [RequestHeap.get, lookupKey] at *
      by_cases her : e.1 = r
      · rw [if_pos her, if_pos her]
      · rw [if_neg her, if_neg her]
        exact ih

theorem get_modify_self {α : Type} {r : Nat} {o : ServiceRequest α}
    {h : RequestHeap α} (hg : RequestHeap.get h r = some o)
    (f : ServiceRequest α → ServiceRequest α) :
    RequestHeap.get (RequestHeap.modify h r f) r = some (f o) := by
  induction h with
  | nil => simp [RequestHeap.get, lookupKey] at hg
  | cons e rest ih =>
    by_cases he : e.1 = r
    · simp only [RequestHeap.get, lookupKey, if_pos he] at hg
      simp only [RequestHeap.modify, List.map_cons, if_pos he]
      simp only [RequestHeap.get, lookupKey]
      have : e.2 = o := by simpa using hg
      simp [this]
    · simp only [RequestHeap.get, lookupKey, if_neg he] at hg
      simp only [RequestHeap.modify, List.map_cons, if_neg he]
      simp only [RequestHeap.get, lookupKey, if_neg he]
      exact ih hg

theorem get_alloc_fresh {α : Type} (h : RequestHeap α) (obj : ServiceRequest α) :
    RequestHeap.get (RequestHeap.alloc h obj).1 (RequestHeap.alloc h obj).2 =
      some obj := by
  simp only [RequestHeap.alloc, RequestHeap.get]
  have hnone : lookupKey (RequestHeap.maxRef h + 1) h = none := by
    refine lookupKey_eq_none (fun e he => ?_)
    have := mem_le_maxRef he
    omega
  rw [lookupKey_append_right hnone]
  simp [lookupKey]

theorem get_alloc_old {α : Type} {r : Nat} {o : ServiceRequest α}
    {h : RequestHeap α} (hg : RequestHeap.get h r = some o)
    (obj : ServiceRequest α) :
    RequestHeap.get (RequestHeap.alloc h obj).1 r = some o := by
  simp only [RequestHeap.alloc, RequestHeap.get] at *
  exact lookupKey_append_left hg

/-
  Invariant preservation for the service client response callback:
  the fresh future ticket of this call is only ever reachable through the
  stamped request id, and can only be completed with a response whose
  correlation id equals the stamped id.
-/

theorem handle_response_inv {β : Type} {rid : String} {t : Nat}
    (s : List (String × Nat) × List (Nat × FutureVal β))
    (a : Option (ServiceResponse β))
    (hp : ∀ p ∈ s.1, p.2 = t → p.1 = rid)
    (hs : ∀ e ∈ s.2, e.1 = t → ∀ resp, e.2 = FutureVal.ok resp →
      resp.response_header.header.id = rid) :
    (∀ p ∈ (ServiceClient.handle_response s a).1, p.2 = t → p.1 = rid) ∧
    (∀ e ∈ (ServiceClient.handle_response s a).2, e.1 = t →
      ∀ resp, e.2 = FutureVal.ok resp →
        resp.response_header.header.id = rid) := by
  match a with
  | none => exact ⟨hp, hs⟩
  | some response =>
    simp only [ServiceClient.handle_response]
    cases hl : lookupKey response.response_header.header.id s.1 with
    | none => exact ⟨hp, hs⟩
    | some ticket =>
      constructor
      · intro p hpmem hpt
        exact hp p (mem_removeKey hpmem) hpt
      · intro e hemem het resp heresp
        rcases List.mem_append.mp hemem with h1 | h2
        · exact hs e h1 het resp heresp
        · have he : e = (ticket,
              if response.response_header.success then FutureVal.ok response
              else FutureVal.error response.response_header.error_message) := by
            simpa using h2
          have hticket : ticket = t := by rw [he] at het; exact het
          have hid : response.response_header.header.id = rid := by
            have hmem := lookupKey_mem hl
            exact hp _ hmem (by simpa using hticket)
          by_cases hsucc : response.response_header.success
          · rw [he] at heresp
            simp only [if_pos hsucc] at heresp
            have : response = resp := by
              simpa using heresp
            rw [← this]
            exact hid
          · rw [he] at heresp
            simp only [if_neg hsucc] at heresp
            cases heresp

theorem handle_response_fold_inv {β : Type} {rid : String} {t : Nat}
    (arrivals : List (Option (ServiceResponse β)))
    (s : List (String × Nat) × List (Nat × FutureVal β))
    (hp : ∀ p ∈ s.1, p.2 = t → p.1 = rid)
    (hs : ∀ e ∈ s.2, e.1 = t → ∀ resp, e.2 = FutureVal.ok resp →
      resp.response_header.header.id = rid) :
    (∀ p ∈ (arrivals.foldl ServiceClient.handle_response s).1,
        p.2 = t → p.1 = rid) ∧
    (∀ e ∈ (arrivals.foldl ServiceClient.handle_response s).2, e.1 = t →
      ∀ resp, e.2 = FutureVal.ok resp →
        resp.response_header.header.id = rid) := by
  induction arrivals generalizing s with
  | nil => exact ⟨hp, hs⟩
  | cons a rest ih =>
    have step := handle_response_inv s a hp hs
    simpa using ih (ServiceClient.handle_response s a) step.1 step.2

theorem handle_response_countKey_le {β : Type} (k : String)
    (s : List (String × Nat) × List (Nat × FutureVal β))
    (a : Option (ServiceResponse β)) :
    countKey k (ServiceClient.handle_response s a).1 ≤ countKey k s.1 := by
  match a with
  | none => exact Nat.le_refl _
  | some response =>
    simp only [ServiceClient.handle_response]
    cases hl : lookupKey response.response_header.header.id s.1 with
    | none => exact Nat.le_refl _
    | some ticket => exact countKey_removeKey_le _ _ _

theorem handle_response_fold_countKey_le {β : Type} (k : String)
    (arrivals : List (Option (ServiceResponse β)))
    (s : List (String × Nat) × List (Nat × FutureVal β)) :
    countKey k (arrivals.foldl ServiceClient.handle_response s).1 ≤
      countKey k s.1 := by
  induction arrivals generalizing s with
  | nil => exact Nat.le_refl _
  | cons a rest ih =>
    calc countKey k ((a :: rest).foldl ServiceClient.handle_response s).1
        = countKey k (rest.foldl ServiceClient.handle_response
            (ServiceClient.handle_response s a)).1 := by simp
      _ ≤ countKey k (ServiceClient.handle_response s a).1 := ih _
      _ ≤ countKey k s.1 := handle_response_countKey_le _ _ _

theorem validate_message_instance_error_ne_empty {c e g : String}
    (hc : c ≠ "") : validate_message_instance_error c e g ≠ "" := by
  intro hcontra
  have hlen := congrArg String.length hcontra
  simp only [validate_message_instance_error, String.length_append] at hlen
  have h0 : ("" : String).length = 0 := rfl
  have h1 : (": Expected " : String).length = 11 := rfl
  have h2 : (", got " : String).length = 6 := rfl
  rw [h0, h1, h2] at hlen
  have hcl : c.length ≠ 0 := by
    intro hzero
    apply hc
    cases c with
    | mk data =>
      have hd : data = [] := List.length_eq_zero.mp hzero
      subst hd
      rfl
  omega

/-- Claim C10: when the service handler returns a value that is not an
instance of the declared response type, _handle_request still publishes
exactly one response for the request (the function returns exactly one
channel-response pair and no exception escapes): an error response with
success = false and an error_message describing the type mismatch,
correlated to the request id, on the per-request response channel. -/
theorem C10_wrong_type_response {α β : Type} (service_channel : String)
    (defaultPayload : β) (expected got : String)
    (request : ServiceRequest α) (now : Int) :
    (ServiceServer.handle_request service_channel defaultPayload
        (HandlerOutcome.wrongType expected got) request now).1 =
      service_channel ++ "/rsp/" ++ request.header.id ∧
    ((ServiceServer.handle_request service_channel defaultPayload
        (HandlerOutcome.wrongType expected got) request now).2).response_header.success = false ∧
    ((ServiceServer.handle_request service_channel defaultPayload
        (HandlerOutcome.wrongType expected got) request now).2).response_header.error_message =
      validate_message_instance_error "handler response" expected got ∧
    ((ServiceServer.handle_request service_channel defaultPayload
        (HandlerOutcome.wrongType expected got) request now).2).response_header.error_message ≠ "" ∧
    ((ServiceServer.handle_request service_channel defaultPayload
        (HandlerOutcome.wrongType expected got) request now).2).response_header.header.id =
      request.header.id := by
  refine ⟨rfl, rfl, rfl, ?_, rfl⟩
  exact validate_message_instance_error_ne_empty (by decide)

/-- Claim C8 counterexample: a handler exception whose text is empty
(e.g. raise ValueError() with no message) produces a published response
with success = false and error_message = "", so success = false does
not imply a non-empty error_message. -/
theorem C8_empty_exception_text_counterexample :
    ((ServiceServer.handle_request "/svc" (0 : Nat) (HandlerOutcome.raises "")
        ({ header := { timestamp_us := 1, id := "cli_1" }, payload := (5 : Nat) })
        9).2).response_header.success = false ∧
    ((ServiceServer.handle_request "/svc" (0 : Nat) (HandlerOutcome.raises "")
        ({ header := { timestamp_us := 1, id := "cli_1" }, payload := (5 : Nat) })
        9).2).response_header.error_message = "" := by
  exact ⟨rfl, rfl⟩

/-- Claim C8 (amended): in every published response, success = true
implies error_message = ""; when the handler raises, success = false
and error_message equals the exception text exactly (hence non-empty
whenever the exception text is non-empty, but empty for an exception
with empty text); when the handler returns a wrong-typed value,
success = false and error_message is the non-empty mismatch text. -/
theorem C8_error_message_matches_failure {α β : Type} (service_channel : String)
    (defaultPayload : β) (outcome : HandlerOutcome β)
    (request : ServiceRequest α) (now : Int) :
    (((ServiceServer.handle_request service_channel defaultPayload outcome
        request now).2).response_header.success = true →
      ((ServiceServer.handle_request service_channel defaultPayload outcome
        request now).2).response_header.error_message = "") ∧
    (∀ msg, outcome = HandlerOutcome.raises msg →
      ((ServiceServer.handle_request service_channel defaultPayload outcome
        request now).2).response_header.success = false ∧
      ((ServiceServer.handle_request service_channel defaultPayload outcome
        request now).2).response_header.error_message = msg ∧
      (msg ≠ "" →
        ((ServiceServer.handle_request service_channel defaultPayload outcome
          request now).2).response_header.error_message ≠ "")) ∧
    (∀ expected got, outcome = HandlerOutcome.wrongType expected got →
      ((ServiceServer.handle_request service_channel defaultPayload outcome
        request now).2).response_header.success = false ∧
      ((ServiceServer.handle_request service_channel defaultPayload outcome
        request now).2).response_header.error_message ≠ "") := by
  refine ⟨?_, ?_, ?_⟩
  · intro hsucc
    cases outcome with
    | ok r => rfl
    | wrongType e g => cases hsucc
    | raises m => cases hsucc
  · intro msg hmsg
    subst hmsg
    exact ⟨rfl, rfl, fun hne => hne⟩
  · intro expected got hwt
    subst hwt
    exact ⟨rfl, validate_message_instance_error_ne_empty (by decide)⟩

/-- Claim C8 witness: the amended theorem applied at a handler raising
an exception with text "bad": the published response carries
success = false and error_message = "bad". -/
theorem C8_error_message_matches_failure_witness :
    ((ServiceServer.handle_request "/svc" (0 : Nat) (HandlerOutcome.raises "bad")
        ({ header := { timestamp_us := 1, id := "cli_1" }, payload := (5 : Nat) })
        9).2).response_header.success = false ∧
    ((ServiceServer.handle_request "/svc" (0 : Nat) (HandlerOutcome.raises "bad")
        ({ header := { timestamp_us := 1, id := "cli_1" }, payload := (5 : Nat) })
        9).2).response_header.error_message = "bad" := by
  have happ := (C8_error_message_matches_failure "/svc" (0 : Nat)
    (HandlerOutcome.raises "bad")
    ({ header := { timestamp_us := 1, id := "cli_1" }, payload := (5 : Nat) })
    9).2.1 "bad" rfl
  exact ⟨happ.1, happ.2.1⟩

/-- Claim C3: every result execute_action publishes carries a terminal
status in SUCCEEDED / ABORTED / CANCELED (in fact only SUCCEEDED or
ABORTED) and never ACCEPTED or EXECUTING; a normally returning handler
yields status = SUCCEEDED with message = ""; a raising handler yields a
default-constructed result (all fields but the freshly written status
are those of self._result_type()) with status = ABORTED and message
equal to the exception text. -/
theorem C3_published_result_status_terminal {γ : Type} (action_channel : String)
    (defaultResult : ActionResult γ) (outcome : ActionHandlerOutcome γ)
    (goal_id : String) (now : Int) (active : List (String × Bool))
    (pub : String × ActionResult γ)
    (hpub : (ActionServer.execute_action action_channel defaultResult outcome
        goal_id now active).1 = some pub) :
    ∃ st, pub.2.status = some st ∧
      (st.status = ActionStatus.SUCCEEDED ∨ st.status = ActionStatus.ABORTED ∨
        st.status = ActionStatus.CANCELED) ∧
      st.status ≠ ActionStatus.ACCEPTED ∧
      st.status ≠ ActionStatus.EXECUTING ∧
      st.header.id = goal_id ∧
      (∀ r, outcome = ActionHandlerOutcome.ok r →
        st.status = ActionStatus.SUCCEEDED ∧ st.message = "") ∧
      (∀ msg, outcome = ActionHandlerOutcome.raises msg →
        st.status = ActionStatus.ABORTED ∧ st.message = msg ∧
        pub.2.payload = defaultResult.payload ∧
        pub.2.response_header = defaultResult.response_header) := by
  cases outcome with
  | ok r =>
    cases hst : r.status with
    | none =>
      simp only [ActionServer.execute_action, hst] at hpub
      cases hpub
    | some s =>
      simp only [ActionServer.execute_action, hst] at hpub
      have hpubeq := Option.some.inj hpub
      subst hpubeq
      refine ⟨{ header := { timestamp_us := now, id := goal_id },
                status := ActionStatus.SUCCEEDED, message := "" },
              rfl, ?_, ?_, ?_, ?_, ?_, ?_⟩
      · exact Or.inl rfl
      · show ActionStatus.SUCCEEDED ≠ ActionStatus.ACCEPTED
        decide
      · show ActionStatus.SUCCEEDED ≠ ActionStatus.EXECUTING
        decide
      · rfl
      · intro r2 hr2
        exact ⟨rfl, rfl⟩
      · intro m hm
        simp at hm
  | wrongType expected got =>
    cases hst : defaultResult.status with
    | none =>
      simp only [ActionServer.execute_action, hst] at hpub
      cases hpub
    | some s =>
      simp only [ActionServer.execute_action, hst] at hpub
      have hpubeq := Option.some.inj hpub
      subst hpubeq
      refine ⟨{ header := { timestamp_us := now, id := goal_id },
                status := ActionStatus.ABORTED,
                message := validate_message_instance_error
                  "handler result" expected got },
              rfl, ?_, ?_, ?_, ?_, ?_, ?_⟩
      · exact Or.inr (Or.inl rfl)
      · show ActionStatus.ABORTED ≠ ActionStatus.ACCEPTED
        decide
      · show ActionStatus.ABORTED ≠ ActionStatus.EXECUTING
        decide
      · rfl
      · intro r2 hr2
        simp at hr2
      · intro m hm
        simp at hm
  | raises msg =>
    cases hst : defaultResult.status with
    | none =>
      simp only [ActionServer.execute_action, hst] at hpub
      cases hpub
    | some s =>
      simp only [ActionServer.execute_action, hst] at hpub
      have hpubeq := Option.some.inj hpub
      subst hpubeq
      refine ⟨{ header := { timestamp_us := now, id := goal_id },
                status := ActionStatus.ABORTED, message := msg },
              rfl, ?_, ?_, ?_, ?_, ?_, ?_⟩
      · exact Or.inr (Or.inl rfl)
      · show ActionStatus.ABORTED ≠ ActionStatus.ACCEPTED
        decide
      · show ActionStatus.ABORTED ≠ ActionStatus.EXECUTING
        decide
      · rfl
      · intro r2 hr2
        simp at hr2
      · intro m hm
        have hmeq : msg = m := by
          injection hm
        subst hmeq
        exact ⟨rfl, rfl, rfl, rfl⟩

/-- Claim C3 witness: the theorem applied to a handler that raises
"boom" on a status-variant result type: the published result carries
status = ABORTED with message "boom" and the payload of the default result. -/
theorem C3_published_result_status_terminal_witness :
    ∃ st, ((ActionServer.execute_action "/act"
        ({ status := (some { header := { timestamp_us := 0, id := "" },
                             status := 0, message := "" }),
           response_header := none, payload := (0 : Nat) })
        (ActionHandlerOutcome.raises "boom") "g1" 5 []).1.getD
          ("", { status := none, response_header := none, payload := 0 })).2.status = some st ∧
      (st.status = ActionStatus.SUCCEEDED ∨ st.status = ActionStatus.ABORTED ∨
        st.status = ActionStatus.CANCELED) ∧
      st.status ≠ ActionStatus.ACCEPTED ∧
      st.status ≠ ActionStatus.EXECUTING := by
  have happ := C3_published_result_status_terminal "/act"
    ({ status := (some { header := { timestamp_us := 0, id := "" },
                         status := 0, message := "" }),
       response_header := none, payload := (0 : Nat) })
    (ActionHandlerOutcome.raises "boom") "g1" 5 []
    ("/act/res/g1",
     { status := (some { header := { timestamp_us := 5, id := "g1" },
                         status := ActionStatus.ABORTED, message := "boom" }),
       response_header := none, payload := 0 })
    rfl
  rcases happ with ⟨st, hst, hterm, hacc, hexec, hid, hok, hraise⟩
  exact ⟨st, hst, hterm, hacc, hexec⟩

/-- Claim C2: evaluation of the code at the failing input.  For a
result type of the ResponseHeader variant (response_header present, no
status field) - a variant _verify_action_types explicitly accepts - an
incoming result for the active goal "act_a_1" is NOT routed by
response_header.header.id: reading result.status.header.id raises
AttributeError, the except block swallows it, the goal stays in the
active map and no completion primitive is fulfilled.  This contradicts
the claimed routing fallback. -/
theorem C2_responseHeader_variant_result_dropped :
    ActionClient.handle_result
      (some ({ status := none,
               response_header :=
                 (some { header := { timestamp_us := 7, id := "act_a_1" },
                         success := true, error_message := "" }),
               payload := 42 } : ActionResult Nat))
      [("act_a_1", { action_channel := "/act", goal_id := "act_a_1",
                     status := ActionStatus.EXECUTING, cancelled := false,
                     result_future := FutureState.pending })] =
    ([("act_a_1", { action_channel := "/act", goal_id := "act_a_1",
                    status := ActionStatus.EXECUTING, cancelled := false,
                    result_future := FutureState.pending })], none) := by
  rfl

theorem cancel_of_cancelled {γ : Type} (now : Int) (s : CancelStep γ)
    (h : s.handle.cancelled = true) : ActionHandle.cancel now s = s := by
  unfold ActionHandle.cancel
  rw [if_neg]
  intro hcond
  rw [h] at hcond
  exact absurd hcond.1 (by decide)

/-- Claim C6: calling cancel N times (N at least 1) on a handle that is
not yet cancelled and whose status is ACCEPTED or EXECUTING behaves
exactly like calling it once: exactly one ActionCancel message is
published on the cancel channel (with goal_id in both the header id and
the goal_id field), the cancelled flag is set, the active-goal map is
untouched, and every call after the first changes nothing. -/
theorem C6_cancel_idempotent {γ : Type} (now : Int) (s : CancelStep γ)
    (N : Nat) (hN : 1 ≤ N) (hc : s.handle.cancelled = false)
    (hs : s.handle.status = ActionStatus.ACCEPTED ∨
      s.handle.status = ActionStatus.EXECUTING) :
    (ActionHandle.cancel now)^[N] s = ActionHandle.cancel now s ∧
    ((ActionHandle.cancel now)^[N] s).published =
      s.published ++ [(s.handle.action_channel ++ "/cancel",
        ActionClient.cancel_goal_msg s.handle.goal_id now)] ∧
    ((ActionHandle.cancel now)^[N] s).handle.cancelled = true ∧
    ((ActionHandle.cancel now)^[N] s).goals = s.goals := by
  have hone : ActionHandle.cancel now s =
      { handle := { s.handle with cancelled := true },
        goals := s.goals,
        published := s.published ++
          [(s.handle.action_channel ++ "/cancel",
            ActionClient.cancel_goal_msg s.handle.goal_id now)] } := by
    unfold ActionHandle.cancel
    rw [if_pos ⟨hc, hs⟩]
  have hcflag : (ActionHandle.cancel now s).handle.cancelled = true := by
    rw [hone]
  have hfix : ∀ n, (ActionHandle.cancel now)^[n] (ActionHandle.cancel now s) =
      ActionHandle.cancel now s := by
    intro n
    induction n with
    | zero => rfl
    | succ n ih =>
      rw [Function.iterate_succ_apply, cancel_of_cancelled now _ hcflag, ih]
  obtain ⟨k, hk⟩ := Nat.exists_eq_add_of_le hN
  have hiter : (ActionHandle.cancel now)^[N] s = ActionHandle.cancel now s := by
    rw [hk, Nat.add_comm, Function.iterate_add_apply,
      Function.iterate_one, hfix]
  refine ⟨hiter, ?_, ?_, ?_⟩
  · rw [hiter, hone]
  · rw [hiter, hcflag]
  · rw [hiter, hone]

/-- Claim C6 witness: three consecutive cancel calls on a fresh
ACCEPTED handle publish exactly one cancel message and set the flag. -/
theorem C6_cancel_idempotent_witness :
    ((ActionHandle.cancel 5)^[3]
        ({ handle := { action_channel := "/act", goal_id := "g1",
                       status := ActionStatus.ACCEPTED, cancelled := false,
                       result_future := FutureState.pending },
           goals := [], published := [] } : CancelStep Nat)).published =
      [("/act/cancel", ActionClient.cancel_goal_msg "g1" 5)] ∧
    ((ActionHandle.cancel 5)^[3]
        ({ handle := { action_channel := "/act", goal_id := "g1",
                       status := ActionStatus.ACCEPTED, cancelled := false,
                       result_future := FutureState.pending },
           goals := [], published := [] } : CancelStep Nat)).handle.cancelled = true := by
  have happ := C6_cancel_idempotent 5
    ({ handle := { action_channel := "/act", goal_id := "g1",
                   status := ActionStatus.ACCEPTED, cancelled := false,
                   result_future := FutureState.pending },
       goals := [], published := [] } : CancelStep Nat)
    3 (by decide) rfl (Or.inl rfl)
  exact ⟨happ.2.1, happ.2.2.1⟩

/-- Claim C7 counterexample: cancel() on an active ACCEPTED goal really
runs (the cancelled flag is set and one cancel message is published),
yet the entry for the goal is still present in the client-side
active-goal map afterwards: cancellation does not destroy the
client-side goal state, contrary to the claim. -/
theorem C7_cancel_keeps_goal_entry :
    ((ActionHandle.cancel 5
        ({ handle := { action_channel := "/act", goal_id := "g1",
                       status := ActionStatus.ACCEPTED, cancelled := false,
                       result_future := FutureState.pending },
           goals := [("g1", { action_channel := "/act", goal_id := "g1",
                              status := ActionStatus.ACCEPTED, cancelled := false,
                              result_future := FutureState.pending })],
           published := [] } : CancelStep Nat)).handle.cancelled = true) ∧
    ((ActionHandle.cancel 5
        ({ handle := { action_channel := "/act", goal_id := "g1",
                       status := ActionStatus.ACCEPTED, cancelled := false,
                       result_future := FutureState.pending },
           goals := [("g1", { action_channel := "/act", goal_id := "g1",
                              status := ActionStatus.ACCEPTED, cancelled := false,
                              result_future := FutureState.pending })],
           published := [] } : CancelStep Nat)).published.length = 1) ∧
    ¬ (lookupKey "g1" (ActionHandle.cancel 5
        ({ handle := { action_channel := "/act", goal_id := "g1",
                       status := ActionStatus.ACCEPTED, cancelled := false,
                       result_future := FutureState.pending },
           goals := [("g1", { action_channel := "/act", goal_id := "g1",
                              status := ActionStatus.ACCEPTED, cancelled := false,
                              result_future := FutureState.pending })],
           published := [] } : CancelStep Nat)).goals = none) := by
  refine ⟨?_, ?_, ?_⟩ <;> decide

/-- Claim C7 (amended): client-side goal state is destroyed when a
terminal result arrives - handle_result pops the goal from the active
map (afterwards the id is no longer a key) and fulfills the handle with
the carried status - while ActionHandle.cancel never modifies the
active-goal map: cancellation only publishes and flips the flag. -/
theorem C7_goal_state_destroyed_on_result_only {γ : Type} :
    (∀ (goals : List (String × ActionHandleState γ)) (result : ActionResult γ)
       (stmsg : ActionStatusMsg) (hd : ActionHandleState γ),
       result.status = some stmsg →
       lookupKey stmsg.header.id goals = some hd →
       countKey stmsg.header.id goals ≤ 1 →
       (ActionClient.handle_result (some result) goals).1 =
         removeKey stmsg.header.id goals ∧
       lookupKey stmsg.header.id
         (ActionClient.handle_result (some result) goals).1 = none ∧
       (ActionClient.handle_result (some result) goals).2 =
         some (stmsg.header.id, ActionHandle.set_result hd result stmsg.status)) ∧
    (∀ (now : Int) (s : CancelStep γ),
       (ActionHandle.cancel now s).goals = s.goals) := by
  constructor
  · intro goals result stmsg hd hstatus hlook hcount
    simp only [ActionClient.handle_result, hstatus, hlook]
    exact ⟨trivial, removeKey_lookup_none hcount, trivial⟩
  · intro now s
    unfold ActionHandle.cancel
    split
    · rfl
    · rfl

/-- Claim C7 witness: the amended theorem applied to a concrete
one-goal map receiving a SUCCEEDED result for "g1": the entry is
removed and the handle completed. -/
theorem C7_goal_state_destroyed_on_result_only_witness :
    (ActionClient.handle_result
      (some ({ status := (some { header := { timestamp_us := 3, id := "g1" },
                                 status := ActionStatus.SUCCEEDED, message := "" }),
               response_header := none, payload := 8 } : ActionResult Nat))
      [("g1", { action_channel := "/act", goal_id := "g1",
                status := ActionStatus.EXECUTING, cancelled := false,
                result_future := FutureState.pending })]).1 = [] ∧
    (ActionClient.handle_result
      (some ({ status := (some { header := { timestamp_us := 3, id := "g1" },
                                 status := ActionStatus.SUCCEEDED, message := "" }),
               response_header := none, payload := 8 } : ActionResult Nat))
      [("g1", { action_channel := "/act", goal_id := "g1",
                status := ActionStatus.EXECUTING, cancelled := false,
                result_future := FutureState.pending })]).2 =
      some ("g1", ActionHandle.set_result
        { action_channel := "/act", goal_id := "g1",
          status := ActionStatus.EXECUTING, cancelled := false,
          result_future := FutureState.pending }
        ({ status := (some { header := { timestamp_us := 3, id := "g1" },
                              status := ActionStatus.SUCCEEDED, message := "" }),
           response_header := none, payload := 8 } : ActionResult Nat)
        ActionStatus.SUCCEEDED) := by
  have happ := (C7_goal_state_destroyed_on_result_only (γ := Nat)).1
    [("g1", { action_channel := "/act", goal_id := "g1",
              status := ActionStatus.EXECUTING, cancelled := false,
              result_future := FutureState.pending })]
    ({ status := (some { header := { timestamp_us := 3, id := "g1" },
                            status := ActionStatus.SUCCEEDED, message := "" }),
       response_header := none, payload := 8 } : ActionResult Nat)
    ({ header := { timestamp_us := 3, id := "g1" },
       status := ActionStatus.SUCCEEDED, message := "" })
    ({ action_channel := "/act", goal_id := "g1",
       status := ActionStatus.EXECUTING, cancelled := false,
       result_future := FutureState.pending })
    rfl (by decide) (by decide)
  exact ⟨happ.1, happ.2.2⟩

/-- Claim C4 counterexample: constructing a second ServiceClient with
exactly the same channel and type shapes runs the structural validation
again - the validation trace has two events, one per construction -
because no memoization of successful checks exists anywhere in the
code.  Under the claim the second construction would add no event. -/
theorem C4_validation_runs_again_on_second_construction :
    (ServiceClient.init "/robot/add_numbers"
        { name := "AddNumbersRequest", has_encode := true, has_decode := true,
          has_header := true, header_has_timestamp_us := true,
          header_has_id := true }
        { name := "AddNumbersResponse", has_encode := true, has_decode := true,
          has_response_header := true, rh_has_header := true,
          rh_has_success := true, rh_has_error_message := true,
          rh_header_has_timestamp_us := true, rh_header_has_id := true }
        none "cli_a"
        (ServiceClient.init "/robot/add_numbers"
          { name := "AddNumbersRequest", has_encode := true, has_decode := true,
            has_header := true, header_has_timestamp_us := true,
            header_has_id := true }
          { name := "AddNumbersResponse", has_encode := true, has_decode := true,
            has_response_header := true, rh_has_header := true,
            rh_has_success := true, rh_has_error_message := true,
            rh_header_has_timestamp_us := true, rh_header_has_id := true }
          none "cli_a" []).2).2 =
    [("/robot/add_numbers", "AddNumbersRequest", "AddNumbersResponse"),
     ("/robot/add_numbers", "AddNumbersRequest", "AddNumbersResponse")] := by
  rfl

/-- Claim C4 (amended): endpoint construction validates the type
parameters at construction time - with a non-empty channel exactly one
validation run for the (channel, type-names) tuple is recorded, and any
checker failure surfaces as that same type-contract error from the
constructor - but successful checks are NOT memoized: every
construction, including one repeating an already-validated tuple,
performs the validation again (the trace always grows by one event). -/
theorem C4_construction_validates_every_time (service_channel : String)
    (rq : RequestTypeShape) (rs : ResponseTypeShape)
    (client_name : Option String) (gen_name : String)
    (log : List ValidationEvent) (hchan : service_channel ≠ "") :
    (ServiceClient.init service_channel rq rs client_name gen_name log).2 =
      log ++ [(service_channel, rq.name, rs.name)] ∧
    (∀ e, verify_service_types rq rs = Except.error e →
      (ServiceClient.init service_channel rq rs client_name gen_name log).1 =
        Except.error e) := by
  constructor
  · cases hv : verify_service_types rq rs with
    | error e => simp [ServiceClient.init, if_neg hchan, hv]
    | ok u =>
      cases client_name with
      | none => simp [ServiceClient.init, if_neg hchan, hv]
      | some n =>
        by_cases hl : MAX_CLIENT_NAME_LENGTH < n.length <;>
          simp [ServiceClient.init, if_neg hchan, hv, hl]
  · intro e he
    simp [ServiceClient.init, if_neg hchan, he]

/-- Claim C4 witness: the amended theorem applied to a concrete
construction over an invalid response shape (missing response_header):
one validation event is recorded and the constructor surfaces the
type-contract error of the checker. -/
theorem C4_construction_validates_every_time_witness :
    (ServiceClient.init "/robot/add_numbers"
        { name := "Req", has_encode := true, has_decode := true,
          has_header := true, header_has_timestamp_us := true,
          header_has_id := true }
        { name := "Resp", has_encode := true, has_decode := true,
          has_response_header := false, rh_has_header := true,
          rh_has_success := true, rh_has_error_message := true,
          rh_header_has_timestamp_us := true, rh_header_has_id := true }
        none "cli_a" []).2 = [("/robot/add_numbers", "Req", "Resp")] ∧
    (ServiceClient.init "/robot/add_numbers"
        { name := "Req", has_encode := true, has_decode := true,
          has_header := true, header_has_timestamp_us := true,
          header_has_id := true }
        { name := "Resp", has_encode := true, has_decode := true,
          has_response_header := false, rh_has_header := true,
          rh_has_success := true, rh_has_error_message := true,
          rh_header_has_timestamp_us := true, rh_header_has_id := true }
        none "cli_a" []).1 =
      Except.error ("Failed to validate response type Resp: " ++
        "Service response type Resp must have a response_header field (core.ServiceResponseHeader)") := by
  have happ := C4_construction_validates_every_time "/robot/add_numbers"
    { name := "Req", has_encode := true, has_decode := true,
      has_header := true, header_has_timestamp_us := true,
      header_has_id := true }
    { name := "Resp", has_encode := true, has_decode := true,
      has_response_header := false, rh_has_header := true,
      rh_has_success := true, rh_has_error_message := true,
      rh_header_has_timestamp_us := true, rh_header_has_id := true }
    none "cli_a" [] (by decide)
  refine ⟨happ.1, happ.2 _ ?_⟩
  rfl

/-- Claim C1: the server stamps every published response - in the
handler-success, wrong-type and handler-error branches alike - with
response_header.header.id equal to the header.id of the incoming request;
and a ServiceClient.call that returns normally returns a response whose
response_header.header.id equals the id the call stamped on the sent
request (given that the pending map holds no stale entry for the
freshly created future). -/
theorem C1_response_id_correlation :
    (∀ (α β : Type) (service_channel : String) (defaultPayload : β)
       (outcome : HandlerOutcome β) (request : ServiceRequest α) (now : Int),
       ((ServiceServer.handle_request service_channel defaultPayload outcome
           request now).2).response_header.header.id = request.header.id) ∧
    (∀ (α β : Type) (service_channel : String) (st : ClientState)
       (request : ServiceRequest α) (now : Int)
       (arrivals : List (Option (ServiceResponse β))) (resp : ServiceResponse β),
       (∀ p ∈ st.pending, p.2 ≠ st.next_ticket) →
       (ServiceClient.call service_channel st request now arrivals).result =
         Except.ok resp →
       resp.response_header.header.id = ServiceClient.stampedId st) := by
  constructor
  · intro α β chan dp outcome request now
    rfl
  · intro α β chan st request now arrivals resp hfresh hok
    have hp0 : ∀ p ∈ st.pending ++
        [(st.client_name ++ "_" ++ toString (st.request_counter + 1),
          st.next_ticket)],
        p.2 = st.next_ticket →
        p.1 = st.client_name ++ "_" ++ toString (st.request_counter + 1) := by
      intro p hp hpt
      rcases List.mem_append.mp hp with h1 | h2
      · exact absurd hpt (hfresh p h1)
      · have hpe : p = (st.client_name ++ "_" ++ toString (st.request_counter + 1),
            st.next_ticket) := by simpa using h2
        rw [hpe]
    have hs0 : ∀ e ∈ ([] : List (Nat × FutureVal β)), e.1 = st.next_ticket →
        ∀ r2, e.2 = FutureVal.ok r2 →
        r2.response_header.header.id =
          st.client_name ++ "_" ++ toString (st.request_counter + 1) := by
      intro e he
      simp at he
    have hinv := handle_response_fold_inv arrivals
      (st.pending ++
        [(st.client_name ++ "_" ++ toString (st.request_counter + 1),
          st.next_ticket)], ([] : List (Nat × FutureVal β))) hp0 hs0
    cases hl : lookupKey st.next_ticket
        ((arrivals.foldl ServiceClient.handle_response
          (st.pending ++
            [(st.client_name ++ "_" ++ toString (st.request_counter + 1),
              st.next_ticket)], ([] : List (Nat × FutureVal β)))).2) with
    | none =>
      have hres : (ServiceClient.call chan st request now arrivals).result =
          Except.error ("Service call to " ++ chan ++ " timed out") := by
        simp only [ServiceClient.call, hl]
      rw [hres] at hok
      exact Except.noConfusion hok
    | some v =>
      cases v with
      | ok r2 =>
        have hres : (ServiceClient.call chan st request now arrivals).result =
            Except.ok r2 := by
          simp only [ServiceClient.call, hl]
        rw [hres] at hok
        have hr2 : r2 = resp := by injection hok
        subst hr2
        have hmem := lookupKey_mem hl
        exact hinv.2 (st.next_ticket, FutureVal.ok r2) hmem rfl r2 rfl
      | error m =>
        have hres : (ServiceClient.call chan st request now arrivals).result =
            Except.error m := by
          simp only [ServiceClient.call, hl]
        rw [hres] at hok
        exact Except.noConfusion hok

/-- Claim C1 witness: a concrete call whose stamped id is "cli_1"
receives a successful response carrying id "cli_1" and returns it;
the correlation id of the returned response equals the stamped id. -/
theorem C1_response_id_correlation_witness :
    ({ response_header := { header := { timestamp_us := 9, id := "cli_1" },
                            success := true, error_message := "" },
       payload := 8 } : ServiceResponse Nat).response_header.header.id =
      ServiceClient.stampedId
        { client_name := "cli", request_counter := 0, pending := [],
          next_ticket := 0 } := by
  exact C1_response_id_correlation.2 Nat Nat "/svc"
    { client_name := "cli", request_counter := 0, pending := [],
      next_ticket := 0 }
    { header := { timestamp_us := 0, id := "" }, payload := 7 } 9
    [some { response_header := { header := { timestamp_us := 9, id := "cli_1" },
                                 success := true, error_message := "" },
            payload := 8 }]
    { response_header := { header := { timestamp_us := 9, id := "cli_1" },
                           success := true, error_message := "" },
      payload := 8 }
    (by simp) rfl

/-- Claim C5: when the wait elapses with the future of this call never
completed (no arrival fulfilled it), call removes the pending-response
slot for the stamped request id, fails with the timeout error, and on
every exit path - success, remote error, or timeout - the per-request
response-channel subscription is released before call returns.  The
hypothesis says the stamped id was not already a pending key (fresh
correlation ids, spec invariant 3). -/
theorem C5_timeout_removes_slot_and_always_unsubscribes {α β : Type}
    (service_channel : String) (st : ClientState) (request : ServiceRequest α)
    (now : Int) (arrivals : List (Option (ServiceResponse β)))
    (hnew : lookupKey (ServiceClient.stampedId st) st.pending = none) :
    (ServiceClient.call service_channel st request now arrivals).unsubscribed =
      true ∧
    (lookupKey st.next_ticket
        (ServiceClient.call service_channel st request now arrivals).store_after =
        none →
      (ServiceClient.call service_channel st request now arrivals).timed_out =
        true ∧
      (ServiceClient.call service_channel st request now arrivals).result =
        Except.error ("Service call to " ++ service_channel ++ " timed out") ∧
      lookupKey (ServiceClient.stampedId st)
        (ServiceClient.call service_channel st request now
          arrivals).pending_after = none) := by
  cases hl : lookupKey st.next_ticket
      ((arrivals.foldl ServiceClient.handle_response
        (st.pending ++
          [(st.client_name ++ "_" ++ toString (st.request_counter + 1),
            st.next_ticket)], ([] : List (Nat × FutureVal β)))).2) with
  | none =>
    constructor
    · simp only [ServiceClient.call, hl]
    · intro hnone
      refine ⟨?_, ?_, ?_⟩
      · simp only [ServiceClient.call, hl]
      · simp only [ServiceClient.call, hl]
      · have hcount0 : countKey (ServiceClient.stampedId st) st.pending = 0 :=
          lookupKey_none_countKey hnew
        have hcount1 : countKey (ServiceClient.stampedId st)
            (st.pending ++
              [(st.client_name ++ "_" ++ toString (st.request_counter + 1),
                st.next_ticket)]) = 1 := by
          rw [countKey_append, hcount0]
          simp [countKey, ServiceClient.stampedId]
        have hle := handle_response_fold_countKey_le (ServiceClient.stampedId st)
          arrivals
          (st.pending ++
            [(st.client_name ++ "_" ++ toString (st.request_counter + 1),
              st.next_ticket)], ([] : List (Nat × FutureVal β)))
        rw [hcount1] at hle
        have hrem := removeKey_lookup_none hle
        simp only [ServiceClient.call, hl]
        exact hrem
  | some v =>
    constructor
    · cases v with
      | ok r2 => simp only [ServiceClient.call, hl]
      | error m => simp only [ServiceClient.call, hl]
    · intro hnone
      have hsa : (ServiceClient.call service_channel st request now
          arrivals).store_after =
          ((arrivals.foldl ServiceClient.handle_response
            (st.pending ++
              [(st.client_name ++ "_" ++ toString (st.request_counter + 1),
                st.next_ticket)], ([] : List (Nat × FutureVal β)))).2) := by
        cases v with
        | ok r2 => simp only [ServiceClient.call, hl]
        | error m => simp only [ServiceClient.call, hl]
      rw [hsa, hl] at hnone
      cases hnone

/-- Claim C5 witness: a call with no arrivals times out: the slot for
the stamped id "cli_1" is gone afterwards, the result is the timeout
error, and the subscription was released. -/
theorem C5_timeout_removes_slot_and_always_unsubscribes_witness :
    (ServiceClient.call "/svc"
        { client_name := "cli", request_counter := 0, pending := [],
          next_ticket := 0 }
        ({ header := { timestamp_us := 0, id := "" }, payload := 7 } :
          ServiceRequest Nat) 9
        ([] : List (Option (ServiceResponse Nat)))).unsubscribed = true ∧
    (ServiceClient.call "/svc"
        { client_name := "cli", request_counter := 0, pending := [],
          next_ticket := 0 }
        ({ header := { timestamp_us := 0, id := "" }, payload := 7 } :
          ServiceRequest Nat) 9
        ([] : List (Option (ServiceResponse Nat)))).timed_out = true ∧
    lookupKey (ServiceClient.stampedId
        { client_name := "cli", request_counter := 0, pending := [],
          next_ticket := 0 })
      (ServiceClient.call "/svc"
        { client_name := "cli", request_counter := 0, pending := [],
          next_ticket := 0 }
        ({ header := { timestamp_us := 0, id := "" }, payload := 7 } :
          ServiceRequest Nat) 9
        ([] : List (Option (ServiceResponse Nat)))).pending_after = none := by
  have happ := C5_timeout_removes_slot_and_always_unsubscribes "/svc"
    { client_name := "cli", request_counter := 0, pending := [],
      next_ticket := 0 }
    ({ header := { timestamp_us := 0, id := "" }, payload := 7 } :
      ServiceRequest Nat) 9
    ([] : List (Option (ServiceResponse Nat))) rfl
  have hto := happ.2 rfl
  exact ⟨happ.1, hto.1, hto.2.2⟩

/-- Claim C9: the copy-and-stamp fragment of ServiceClient.call writes
the allocated id and transmit timestamp only on a freshly allocated
copy: the copy is a different object, the caller-owned request object
is unchanged on the heap in all of its fields (header.id,
header.timestamp_us and the user payload), and the copy carries the
stamped header together with the payload of the caller. -/
theorem C9_caller_request_untouched {α : Type} (h : RequestHeap α)
    (reqRef : Nat) (defaultPayload : α) (now : Int) (rid : String)
    (orig : ServiceRequest α)
    (horig : RequestHeap.get h reqRef = some orig) :
    ∃ copyRef,
      (ServiceClient.stamp_request h reqRef defaultPayload now rid).2 =
        some copyRef ∧
      reqRef ≠ copyRef ∧
      RequestHeap.get
        (ServiceClient.stamp_request h reqRef defaultPayload now rid).1
        reqRef = some orig ∧
      RequestHeap.get
        (ServiceClient.stamp_request h reqRef defaultPayload now rid).1
        copyRef =
        some { header := { timestamp_us := now, id := rid },
               payload := orig.payload } := by
  have hle : reqRef ≤ RequestHeap.maxRef h := mem_le_maxRef (lookupKey_mem horig)
  have hne : reqRef ≠ (RequestHeap.alloc h
      { header := { timestamp_us := 0, id := "" },
        payload := defaultPayload }).2 := by
    simp only [RequestHeap.alloc]
    omega
  refine ⟨(RequestHeap.alloc h
      { header := { timestamp_us := 0, id := "" },
        payload := defaultPayload }).2, ?_, hne, ?_, ?_⟩
  · simp only [ServiceClient.stamp_request, horig]
  · simp only [ServiceClient.stamp_request, horig]
    rw [get_modify_ne _ _ hne, get_modify_ne _ _ hne, get_modify_ne _ _ hne]
    exact get_alloc_old horig _
  · simp only [ServiceClient.stamp_request, horig]
    have g1 := get_alloc_fresh h
      ({ header := { timestamp_us := 0, id := "" },
         payload := defaultPayload } : ServiceRequest α)
    have g2 := get_modify_self g1
      (fun c => { c with payload := orig.payload })
    have g3 := get_modify_self g2
      (fun c => { c with header := { c.header with timestamp_us := now } })
    have g4 := get_modify_self g3
      (fun c => { c with header := { c.header with id := rid } })
    exact g4

/-- Claim C9 witness: stamping on a one-object heap: the caller object
at reference 1 keeps header id "keep", timestamp 2 and payload 7, while
the copy at the fresh reference 2 carries the stamped header. -/
theorem C9_caller_request_untouched_witness :
    ∃ copyRef,
      (ServiceClient.stamp_request
        ([(1, { header := { timestamp_us := 2, id := "keep" }, payload := 7 })] :
          RequestHeap Nat) 1 0 9 "cli_1").2 = some copyRef ∧
      (1 : Nat) ≠ copyRef ∧
      RequestHeap.get
        (ServiceClient.stamp_request
          ([(1, { header := { timestamp_us := 2, id := "keep" }, payload := 7 })] :
            RequestHeap Nat) 1 0 9 "cli_1").1 1 =
        some { header := { timestamp_us := 2, id := "keep" }, payload := 7 } ∧
      RequestHeap.get
        (ServiceClient.stamp_request
          ([(1, { header := { timestamp_us := 2, id := "keep" }, payload := 7 })] :
            RequestHeap Nat) 1 0 9 "cli_1").1 copyRef =
        some { header := { timestamp_us := 9, id := "cli_1" }, payload := 7 } := by
  exact C9_caller_request_untouched
    ([(1, { header := { timestamp_us := 2, id := "keep" }, payload := 7 })] :
      RequestHeap Nat) 1 0 9 "cli_1"
    { header := { timestamp_us := 2, id := "keep" }, payload := 7 } rfl
